import Mathlib

set_option maxHeartbeats 2000000
set_option maxRecDepth 8192

/-!
Verification of the dc-secretcup-parser repository (a Discord bot tracking a
competitive season of timed courses).  The definitions below are a shallow
embedding of the Python source files under src/: pure functions become Lean
functions, the SQLite tables become lists of row structures, and fallible
code returns Option.  File and line references point into the source tree.
-/

/- ============================================================ -/
/- Definitions                                                  -/
/- ============================================================ -/

/-- Points table of DatabaseManager.calculate_points, src/db_manager.py lines
274-276.  Rank 3 is worth 20 points here. -/
def DatabaseManager.points_map : List (Int × Int) :=
  [(1, 30), (2, 25), (3, 20), (4, 18), (5, 16), (6, 14), (7, 12), (8, 10), (9, 8), (10, 6)]

/-- DatabaseManager.calculate_points, src/db_manager.py lines 272-289.
A Python dict lookup raises KeyError on a missing key, so the branch for
rank at most 10 is partial; none models the raised KeyError. -/
def DatabaseManager.calculate_points (position : Int) : Option Int :=
  if position ≤ 10 then DatabaseManager.points_map.lookup position
  else if position ≤ 15 then some 4
  else if position ≤ 20 then some 3
  else if position ≤ 25 then some 2
  else if position ≤ 30 then some 1
  else some 0

/-- Points table of MessageFormatter.calculate_points, src/formatters.py lines
292-294.  Rank 3 is worth 21 points here, unlike the table in db_manager. -/
def MessageFormatter.points_map : List (Int × Int) :=
  [(1, 30), (2, 25), (3, 21), (4, 18), (5, 16), (6, 14), (7, 12), (8, 10), (9, 8), (10, 6)]

/-- MessageFormatter.calculate_points, src/formatters.py lines 289-307. -/
def MessageFormatter.calculate_points (position : Int) : Option Int :=
  if position ≤ 10 then MessageFormatter.points_map.lookup position
  else if position ≤ 15 then some 4
  else if position ≤ 20 then some 3
  else if position ≤ 25 then some 2
  else if position ≤ 30 then some 1
  else some 0

/-- Mutable state of LogWatcher that check_log_file and load_position touch:
the byte offset self.last_position (src/log_watcher.py line 27). -/
structure WatcherState where
  last_position : Int
deriving DecidableEq

/-- The parts of the file system LogWatcher reads: the position file content
and the log file content (none models a missing file).  The log file is a
byte sequence, modelled as a list of characters. -/
structure FileSystem where
  position_file : Option String
  log_file : Option (List Char)
deriving DecidableEq

/-- LogWatcher.load_position, src/log_watcher.py lines 61-76.  If the
position file exists its stripped content is parsed as an integer (a parse
failure raises, and the except branch sets the offset to 0); otherwise, if
the log file exists, the offset becomes its current size; otherwise the
state is left as it was. -/
def LogWatcher.load_position (st : WatcherState) (fs : FileSystem) : WatcherState :=
  match fs.position_file with
  | some content =>
    match content.trim.toInt? with
    | some n => { st with last_position := n }
    | none => { st with last_position := 0 }
  | none =>
    match fs.log_file with
    | some log => { st with last_position := (log.length : Int) }
    | none => st

/-- LogWatcher.check_log_file, src/log_watcher.py lines 87-117.  Returns the
new state together with the text handed to process_new_content (none when
nothing is read).  A size smaller than the recorded offset means the file
was rotated and the offset is reset to 0 before reading; a negative offset
would make the seek raise, which the except branch catches having changed
nothing. -/
def LogWatcher.check_log_file (st : WatcherState) (log_file : Option (List Char)) :
    WatcherState × Option (List Char) :=
  match log_file with
  | none => (st, none)
  | some content =>
    let current_size : Int := content.length
    let lp : Int := if current_size < st.last_position then 0 else st.last_position
    if current_size = lp then ({ st with last_position := lp }, none)
    else if lp < 0 then (st, none)
    else
      let new_content := content.drop lp.toNat
      ({ st with last_position := current_size },
        if new_content.isEmpty then none else some new_content)

/-- One row of the seasons table (src/db_manager.py lines 27-36). -/
structure SeasonRow where
  id : Nat
  season_number : Int
  title : Option String
  start_date : Int
  end_date : Option Int
  is_active : Bool
deriving DecidableEq

/-- One entry of the standings array of a course-expiry JSON event
(src/log_watcher.py lines 215-244). -/
structure Standing where
  rank : Int
  username : String
  duration_ms : Int
  time_str : String
deriving DecidableEq

/-- The standings_data dict handed to expire_course: a JSON object carrying a
standings array. -/
structure ExpiryEvent where
  standings : List Standing
deriving DecidableEq

/-- One row of the season_courses table (src/db_manager.py lines 39-50).  The
frozen final_standings JSON blob is modelled as the stored event itself. -/
structure SeasonCourseRow where
  season_id : Nat
  course_name : String
  full_course_name : String
  secret_until : Int
  expired : Bool
  final_standings : Option ExpiryEvent
deriving DecidableEq

/-- One row of the course_results table (src/db_manager.py lines 66-78).  The
schema declares no uniqueness constraint, so the table is a plain list. -/
structure CourseResultRow where
  season_id : Nat
  course_name : String
  player_name : String
  position : Int
  points : Int
  duration_ms : Int
  time_str : String
deriving DecidableEq

/-- One row of the player_scores table (src/db_manager.py lines 53-63),
unique on the season and player pair. -/
structure PlayerScoreRow where
  season_id : Nat
  player_name : String
  total_points : Int
  courses_completed : Nat
deriving DecidableEq

/-- The bot database as a whole. -/
structure BotDB where
  seasons : List SeasonRow
  season_courses : List SeasonCourseRow
  player_scores : List PlayerScoreRow
  course_results : List CourseResultRow
deriving DecidableEq

/-- The freshly initialized database of init_bot_database (src/db_manager.py
lines 22-97): all tables empty. -/
def emptyDB : BotDB :=
  { seasons := [], season_courses := [], player_scores := [], course_results := [] }

/-- Course display-name extraction used throughout the source, for example
src/db_manager.py line 243: the part inside the first parenthesis pair when
one is present, otherwise the full name. -/
def extract_course_name (full : String) : String :=
  if full.contains '(' then (((full.splitOn "(").getD 1 "").splitOn ")").getD 0 ""
  else full

/-- DatabaseManager.get_active_season, src/db_manager.py lines 123-145: the
first seasons row marked active. -/
def get_active_season (db : BotDB) : Option SeasonRow :=
  db.seasons.find? (fun s => s.is_active)

/-- DatabaseManager.create_season, src/db_manager.py lines 99-121: deactivate
every active season and insert a new active row.  The season_number column
is unique, so a duplicate insert raises and the transaction is never
committed, modelled by none. -/
def create_season (db : BotDB) (season_number : Int) (title : Option String) (now : Int) :
    Option BotDB :=
  if db.seasons.any (fun s => s.season_number == season_number) then none
  else
    let deactivated := db.seasons.map
      (fun s => if s.is_active then { s with is_active := false } else s)
    let new_id := (db.seasons.map (fun s => s.id)).foldl max 0 + 1
    some { db with seasons := deactivated ++
      [{ id := new_id, season_number := season_number, title := title,
         start_date := now, end_date := none, is_active := true }] }

/-- DatabaseManager.end_season, src/db_manager.py lines 147-163. -/
def end_season (db : BotDB) (season_id : Nat) (now : Int) : BotDB :=
  { db with seasons := db.seasons.map (fun s =>
      if s.id == season_id then { s with is_active := false, end_date := some now } else s) }

/-- DatabaseManager.add_season_course, src/db_manager.py lines 190-208: an
insert-or-replace keyed on the unique full_course_name column, so the
conflicting row is dropped and the fresh row appended. -/
def add_season_course (db : BotDB) (season_id : Nat) (full_course_name : String)
    (secret_until : Int) : BotDB :=
  { db with season_courses :=
      db.season_courses.filter (fun c => c.full_course_name != full_course_name) ++
        [{ season_id := season_id, course_name := extract_course_name full_course_name,
           full_course_name := full_course_name, secret_until := secret_until,
           expired := false, final_standings := none }] }

/-- DatabaseManager.remove_season_course, src/db_manager.py lines 210-223. -/
def remove_season_course (db : BotDB) (season_id : Nat) (full_course_name : String) : BotDB :=
  { db with season_courses := db.season_courses.filter (fun c =>
      !(c.season_id == season_id && c.full_course_name == full_course_name)) }

/-- The player_scores upsert inside expire_course (src/db_manager.py lines
256-263): insert a fresh row, or on conflict with the unique season-player
key add the points and bump the completed count of that row. -/
def upsert_player_score (scores : List PlayerScoreRow) (season_id : Nat) (player : String)
    (points : Int) : List PlayerScoreRow :=
  match scores with
  | [] => [{ season_id := season_id, player_name := player,
             total_points := points, courses_completed := 1 }]
  | s :: rest =>
    if s.season_id == season_id && s.player_name == player then
      { s with total_points := s.total_points + points,
               courses_completed := s.courses_completed + 1 } :: rest
    else s :: upsert_player_score rest season_id player points

/-- One iteration of the standings loop in expire_course (src/db_manager.py
lines 245-263): append one course_results row and upsert the player
accumulator with the same points. -/
def apply_result (season_id : Nat) (course_name : String) (acc : BotDB) (r : Standing)
    (points : Int) : BotDB :=
  { acc with
    course_results := acc.course_results ++
      [{ season_id := season_id, course_name := course_name, player_name := r.username,
         position := r.rank, points := points, duration_ms := r.duration_ms,
         time_str := r.time_str }],
    player_scores := upsert_player_score acc.player_scores season_id r.username points }

/-- One monadic step of the loop; none models the KeyError raised by
calculate_points on a rank outside the table. -/
def expire_step (season_id : Nat) (course_name : String) (acc : BotDB) (r : Standing) :
    Option BotDB :=
  (DatabaseManager.calculate_points r.rank).map (apply_result season_id course_name acc r)

/-- DatabaseManager.expire_course, src/db_manager.py lines 225-270.  With no
active season it logs and returns unchanged.  Otherwise it marks the course
expired, stores the standings snapshot, and for every standing appends a
result row and upserts the player accumulator.  All statements run on one
connection committed at the end, so an exception part-way (none) leaves the
stored database unchanged. -/
def expire_course (db : BotDB) (full_course_name : String) (standings_data : ExpiryEvent) :
    Option BotDB :=
  match get_active_season db with
  | none => some db
  | some season =>
    let db1 := { db with season_courses := db.season_courses.map (fun c =>
        if c.full_course_name == full_course_name && c.season_id == season.id then
          { c with expired := true, final_standings := some standings_data } else c) }
    standings_data.standings.foldlM
      (expire_step season.id (extract_course_name full_course_name)) db1

/-- Ledger states reachable from the freshly initialized database through the
mutating operations of DatabaseManager; a raising operation (none) leaves
the database as it was. -/
inductive Reachable : BotDB → Prop where
  | init : Reachable emptyDB
  | create (db : BotDB) (n : Int) (t : Option String) (now : Int) :
      Reachable db → Reachable ((create_season db n t now).getD db)
  | stop (db : BotDB) (sid : Nat) (now : Int) :
      Reachable db → Reachable (end_season db sid now)
  | add (db : BotDB) (sid : Nat) (full : String) (secret : Int) :
      Reachable db → Reachable (add_season_course db sid full secret)
  | remove (db : BotDB) (sid : Nat) (full : String) :
      Reachable db → Reachable (remove_season_course db sid full)
  | expire (db : BotDB) (full : String) (ev : ExpiryEvent) :
      Reachable db → Reachable ((expire_course db full ev).getD db)

/-- Sum of the accumulator points over the rows keyed by a season and
player (at most one row exists under the schema constraint). -/
def scoreTotal (scores : List PlayerScoreRow) (sid : Nat) (p : String) : Int :=
  ((scores.filter (fun s => s.season_id == sid && s.player_name == p)).map
    (fun s => s.total_points)).sum

/-- Sum of the accumulator completed counts over the rows keyed by a season
and player. -/
def scoreCount (scores : List PlayerScoreRow) (sid : Nat) (p : String) : Nat :=
  ((scores.filter (fun s => s.season_id == sid && s.player_name == p)).map
    (fun s => s.courses_completed)).sum

/-- Sum of the points of the course_results rows of one player in one
season. -/
def resultsSum (rows : List CourseResultRow) (sid : Nat) (p : String) : Int :=
  ((rows.filter (fun r => r.season_id == sid && r.player_name == p)).map
    (fun r => r.points)).sum

/-- Number of course_results rows of one player in one season. -/
def resultsCount (rows : List CourseResultRow) (sid : Nat) (p : String) : Nat :=
  (rows.filter (fun r => r.season_id == sid && r.player_name == p)).length

/-- The bookkeeping invariant of claim C7: per season and player, the
accumulator carries exactly the sum and the count of the result rows. -/
def ScoresInv (db : BotDB) : Prop :=
  ∀ sid p, scoreTotal db.player_scores sid p = resultsSum db.course_results sid p ∧
    scoreCount db.player_scores sid p = resultsCount db.course_results sid p

/-- Points one expiry event awards to one player (0 stands in for a rank the
table does not cover; the lemmas below only use it when every rank is
covered). -/
def event_points (l : List Standing) (p : String) : Int :=
  ((l.filter (fun r => r.username == p)).map
    (fun r => (DatabaseManager.calculate_points r.rank).getD 0)).sum

/-- Number of standings of one player inside one expiry event. -/
def event_count (l : List Standing) (p : String) : Nat :=
  (l.filter (fun r => r.username == p)).length

/-- Byte-wise order on strings, the BINARY collation SQLite applies to ORDER
BY player_name. -/
def strLt : List Char → List Char → Bool
  | [], [] => false
  | [], _ :: _ => true
  | _ :: _, [] => false
  | a :: as, b :: bs => if a < b then true else if b < a then false else strLt as bs

/-- Row order of the ORDER BY player_name, points DESC clause of the
leaderboard query (src/db_manager.py lines 323-328). -/
def rowOrder (r s : CourseResultRow) : Prop :=
  strLt r.player_name.data s.player_name.data = true ∨
    (r.player_name = s.player_name ∧ s.points ≤ r.points)

instance : DecidableRel rowOrder := fun r s => by unfold rowOrder; infer_instance

/-- The per-player dicts collected from the query rows (src/db_manager.py
lines 331-342): course name and points. -/
structure PointsEntry where
  course : String
  points : Int
deriving DecidableEq

/-- Order sorting one player s results by points descending
(src/db_manager.py line 371); Python list.sort is stable, and so is
insertionSort. -/
def pointsDescOrder (a b : PointsEntry) : Prop := b.points ≤ a.points

instance : DecidableRel pointsDescOrder := fun a b => by unfold pointsDescOrder; infer_instance

instance : IsTotal PointsEntry pointsDescOrder := ⟨fun a b => le_total b.points a.points⟩

instance : IsTrans PointsEntry pointsDescOrder := ⟨fun _ _ _ h1 h2 => le_trans h2 h1⟩

/-- Descending order on plain integers, used to phrase the top-scores sums
independently of the row representation. -/
def intDescOrder (a b : Int) : Prop := b ≤ a

instance : DecidableRel intDescOrder := fun a b => by unfold intDescOrder; infer_instance

instance : IsTotal Int intDescOrder := ⟨fun a b => le_total b a⟩

instance : IsTrans Int intDescOrder := ⟨fun _ _ _ h1 h2 => le_trans h2 h1⟩

instance : IsAntisymm Int intDescOrder := ⟨fun _ _ h1 h2 => le_antisymm h2 h1⟩

/-- One leaderboard dict produced by get_season_leaderboard
(src/db_manager.py lines 375-380); the position key appears only at lines
386-387, so it is 0 until assigned. -/
structure LBEntry where
  username : String
  total_points : Int
  courses_completed : Nat
  courses_counted : Nat
  position : Nat
deriving DecidableEq

/-- Final ordering of the leaderboard: total points descending, then
completed count descending (src/db_manager.py line 383). -/
def finalOrder (a b : LBEntry) : Prop :=
  b.total_points < a.total_points ∨
    (a.total_points = b.total_points ∧ b.courses_completed ≤ a.courses_completed)

instance : DecidableRel finalOrder := fun a b => by unfold finalOrder; infer_instance

/-- Keys of a Python dict in insertion order, with the names already seen
carried along: each name is kept at its first occurrence only. -/
def firstSeenAcc : List String → List String → List String
  | _, [] => []
  | seen, p :: rest =>
    if seen.contains p then firstSeenAcc seen rest
    else p :: firstSeenAcc (p :: seen) rest

/-- Keys of a Python dict in insertion order: each name at its first
occurrence. -/
def firstSeen (l : List String) : List String := firstSeenAcc [] l

/-- The hardcoded gate at src/db_manager.py line 355: the commented-out 80
percent rule was replaced by the constant 0, so no minimum-participation
filter ever applies, whatever value the configuration holds. -/
def min_courses_required : Nat := 0

/-- The 60 percent rule at src/db_manager.py line 356.  The Python float
expression int(0.6 * total + 0.5) is modelled in exact integer arithmetic;
at every total the theorems below instantiate, the float evaluation
agrees. -/
def best_courses_count (total_courses : Nat) : Nat := max 1 ((6 * total_courses + 5) / 10)

/-- The leaderboard query rows: results of the season, ordered by player then
points descending (src/db_manager.py lines 323-328). -/
def season_rows (db : BotDB) (sid : Nat) : List CourseResultRow :=
  List.insertionSort rowOrder (db.course_results.filter (fun r => r.season_id == sid))

/-- Count of season_courses rows of the season (src/db_manager.py lines
345-348). -/
def total_courses (db : BotDB) (sid : Nat) : Nat :=
  (db.season_courses.filter (fun c => c.season_id == sid)).length

/-- The per-player result list grouped out of the query rows
(src/db_manager.py lines 331-342). -/
def player_results_for (rows : List CourseResultRow) (p : String) : List PointsEntry :=
  (rows.filter (fun r => r.player_name == p)).map
    (fun r => { course := r.course_name, points := r.points })

/-- One leaderboard entry (src/db_manager.py lines 363-380): sort the player
results by points descending, keep the best best_count of them, and sum
those. -/
def leaderboard_entry (best_count : Nat) (p : String) (results : List PointsEntry) : LBEntry :=
  let sorted := List.insertionSort pointsDescOrder results
  let best_scores := sorted.take best_count
  { username := p
    total_points := (best_scores.map (fun s => s.points)).sum
    courses_completed := results.length
    courses_counted := best_scores.length
    position := 0 }

/-- The leaderboard before final sorting and position assignment
(src/db_manager.py lines 362-380): one entry per player in first-seen
order, skipping players under the (hardcoded zero) minimum gate. -/
def leaderboard_pre (db : BotDB) (sid : Nat) : List LBEntry :=
  let rows := season_rows db sid
  (firstSeen (rows.map (fun r => r.player_name))).filterMap (fun p =>
    let results := player_results_for rows p
    if min_courses_required ≠ 0 ∧ results.length < min_courses_required then none
    else some (leaderboard_entry (best_courses_count (total_courses db sid)) p results))

/-- Position assignment over the sorted list (src/db_manager.py lines
386-387). -/
def add_positions (l : List LBEntry) : List LBEntry :=
  l.enum.map (fun e => { e.2 with position := e.1 + 1 })

/-- DatabaseManager.get_season_leaderboard, src/db_manager.py lines
318-393. -/
def get_season_leaderboard (db : BotDB) (season_id : Nat) : List LBEntry :=
  if total_courses db season_id = 0 then []
  else add_positions (List.insertionSort finalOrder (leaderboard_pre db season_id))

/-- The sum of the k largest values of a list of integers. -/
def topSum (k : Nat) (l : List Int) : Int :=
  ((List.insertionSort intDescOrder l).take k).sum

/-- One Discord channel as the spec contract describes it: the set of live
messages (id paired with rendered content, abstracted to a number) plus the
next fresh id the platform will assign. -/
structure ChannelState where
  id : Nat
  messages : List (Nat × Nat)
  next_id : Nat
deriving DecidableEq

/-- channel.fetch_message: the content when the id exists, none for the
discord.NotFound error. -/
def fetch_message (ch : ChannelState) (message_id : Nat) : Option Nat :=
  ch.messages.lookup message_id

/-- channel.send: append a fresh message and return its id. -/
def send_message (ch : ChannelState) (embed : Nat) : ChannelState × Nat :=
  ({ ch with messages := ch.messages ++ [(ch.next_id, embed)], next_id := ch.next_id + 1 },
    ch.next_id)

/-- message.edit: replace the content in place, ids untouched. -/
def edit_message (ch : ChannelState) (message_id : Nat) (embed : Nat) : ChannelState :=
  { ch with messages := ch.messages.map (fun m =>
      if m.1 == message_id then (m.1, embed) else m) }

/-- One row of the bot_messages table (src/db_manager.py lines 81-90), the
TrackedMessage mapping of a display slot. -/
structure TrackedMessage where
  message_type : String
  channel_id : Nat
  message_id : Nat
  season_id : Nat
deriving DecidableEq

/-- Modelled from the spec: DatabaseManager defines no get_message_ids, only
its caller exists (src/message_manager.py line 102); the spec says look up
the slot TrackedMessage for this season. -/
def get_message_ids (rows : List TrackedMessage) (sid : Nat) (message_type : String) :
    Option TrackedMessage :=
  rows.find? (fun r => r.season_id == sid && r.message_type == message_type)

/-- Modelled from the spec: DatabaseManager defines no delete_message_id,
only its caller exists (src/message_manager.py line 143); the spec says
delete the stale TrackedMessage mapping of the slot and season. -/
def delete_message_id (rows : List TrackedMessage) (message_type : String) (sid : Nat) :
    List TrackedMessage :=
  rows.filter (fun r => !(r.message_type == message_type && r.season_id == sid))

/-- Modelled from the spec: DatabaseManager defines no store_message_id, only
its caller exists (src/message_manager.py line 153); the spec says store
the new channel id and message id as the TrackedMessage of the slot and
season. -/
def store_message_id (rows : List TrackedMessage) (message_type : String)
    (channel_id message_id sid : Nat) : List TrackedMessage :=
  rows ++ [{ message_type := message_type, channel_id := channel_id,
             message_id := message_id, season_id := sid }]

/-- What one slot reconciliation did. -/
inductive SlotOutcome where
  | edited
  | created (message_id : Nat)
deriving DecidableEq

/-- MessageManager update of one slot, src/message_manager.py lines 130-157:
fetch the stored message and edit it in place; on NotFound drop the stale
mapping, send exactly one new message and store its id; with no mapping at
all, send and store likewise. -/
def update_message (ch : ChannelState) (rows : List TrackedMessage) (message_type : String)
    (sid : Nat) (embed : Nat) : ChannelState × List TrackedMessage × SlotOutcome :=
  match get_message_ids rows sid message_type with
  | some info =>
    match fetch_message ch info.message_id with
    | some _ => (edit_message ch info.message_id embed, rows, SlotOutcome.edited)
    | none =>
      let rows1 := delete_message_id rows message_type sid
      let sent := send_message ch embed
      (sent.1, store_message_id rows1 message_type ch.id sent.2 sid, SlotOutcome.created sent.2)
  | none =>
    let sent := send_message ch embed
    (sent.1, store_message_id rows message_type ch.id sent.2 sid, SlotOutcome.created sent.2)

/-- The methods class DatabaseManager defines, transcribed from
src/db_manager.py lines 15-421. -/
def databaseManagerMethods : List String :=
  ["init_bot_database", "create_season", "get_active_season", "end_season",
   "get_season_by_number", "add_season_course", "remove_season_course",
   "expire_course", "calculate_points", "get_current_standings",
   "get_season_leaderboard", "get_active_courses"]

/-- State the live-update cycle touches: the bot database, the bot_messages
table, the configured announcement channel id, and the reachable
channels. -/
structure SyncState where
  db : BotDB
  bot_messages : List TrackedMessage
  announcement_channel_id : Option Nat
  channels : List ChannelState
deriving DecidableEq

/-- How one update_all_messages cycle ended. -/
inductive UpdateOutcome where
  | noActiveSeason
  | noChannelConfigured
  | channelNotFound
  | caughtError (message : String)
  | completed
deriving DecidableEq

/-- MessageManager.update_all_messages, src/message_manager.py lines 79-128.
After the season and channel guards, the first statement of the body (line
97) reads the attribute get_season_leaderboard_with_projections off the
db_manager object; when DatabaseManager defines no such method Python
raises AttributeError there, the enclosing except at line 127 catches and
logs it, and nothing further runs.  The branch in which the attribute would
exist is dead for the transcribed method table and carries no effects. -/
def update_all_messages (st : SyncState) : SyncState × UpdateOutcome :=
  match get_active_season st.db with
  | none => (st, UpdateOutcome.noActiveSeason)
  | some _ =>
    match st.announcement_channel_id with
    | none => (st, UpdateOutcome.noChannelConfigured)
    | some cid =>
      match st.channels.find? (fun c => c.id == cid) with
      | none => (st, UpdateOutcome.channelNotFound)
      | some _ =>
        if databaseManagerMethods.contains "get_season_leaderboard_with_projections" then
          (st, UpdateOutcome.completed)
        else
          (st, UpdateOutcome.caughtError
            "AttributeError: get_season_leaderboard_with_projections")

/- ============================================================ -/
/- Concrete states used by counterexamples and witnesses        -/
/- ============================================================ -/

/-- A single active season. -/
def exampleSeason : SeasonRow :=
  { id := 1, season_number := 1, title := none, start_date := 0,
    end_date := none, is_active := true }

/-- A season_courses row of season 1. -/
def exampleCourse (name : String) (ts : Int) : SeasonCourseRow :=
  { season_id := 1, course_name := name, full_course_name := name,
    secret_until := ts, expired := true, final_standings := none }

/-- A course_results row of season 1. -/
def exampleResult (course p : String) (rank points : Int) : CourseResultRow :=
  { season_id := 1, course_name := course, player_name := p, position := rank,
    points := points, duration_ms := 1000, time_str := "1.000" }

/-- Database with three courses where player bob completed exactly two of
them: the counterexample state of claim C1. -/
def c1db : BotDB :=
  { seasons := [exampleSeason]
    season_courses := [exampleCourse "dash1" 10, exampleCourse "dash2" 20,
      exampleCourse "dash3" 30]
    player_scores := []
    course_results := [exampleResult "dash1" "bob" 1 30, exampleResult "dash2" "bob" 2 25] }

/-- Database with ten courses where player alice completed eight: the witness
state of claim C6. -/
def c6db : BotDB :=
  { seasons := [exampleSeason]
    season_courses := [exampleCourse "d1" 1, exampleCourse "d2" 2, exampleCourse "d3" 3,
      exampleCourse "d4" 4, exampleCourse "d5" 5, exampleCourse "d6" 6,
      exampleCourse "d7" 7, exampleCourse "d8" 8, exampleCourse "d9" 9,
      exampleCourse "d10" 10]
    player_scores := []
    course_results := [exampleResult "d1" "alice" 1 30, exampleResult "d2" "alice" 2 25,
      exampleResult "d3" "alice" 3 20, exampleResult "d4" "alice" 4 18,
      exampleResult "d5" "alice" 5 16, exampleResult "d6" "alice" 6 14,
      exampleResult "d7" "alice" 7 12, exampleResult "d8" "alice" 8 10] }

/-- The eight result rows of alice in c6db, in table order. -/
def c6rows : List CourseResultRow :=
  [exampleResult "d1" "alice" 1 30, exampleResult "d2" "alice" 2 25,
   exampleResult "d3" "alice" 3 20, exampleResult "d4" "alice" 4 18,
   exampleResult "d5" "alice" 5 16, exampleResult "d6" "alice" 6 14,
   exampleResult "d7" "alice" 7 12, exampleResult "d8" "alice" 8 10]

/-- Database with one active season and one course: the witness state of
claim C5. -/
def c5db : BotDB :=
  { seasons := [exampleSeason]
    season_courses :=
      [{ season_id := 1
         course_name := "dash1"
         full_course_name := "racearena_pro (dash1)"
         secret_until := 10
         expired := false
         final_standings := none }]
    player_scores := []
    course_results := [] }

/-- A one-player expiry event for the course of c5db. -/
def c5event : ExpiryEvent :=
  { standings :=
      [{ rank := 1
         username := "alice"
         duration_ms := 1000
         time_str := "1.000" }] }

/-- Channel holding one unrelated message; id 99 does not exist, so a
mapping pointing at 99 is stale. -/
def c3channel : ChannelState := { id := 1, messages := [(5, 0)], next_id := 6 }

/-- A stale TrackedMessage mapping pointing at the missing remote id 99. -/
def c3rows : List TrackedMessage :=
  [{ message_type := "season_summary", channel_id := 1, message_id := 99, season_id := 7 }]

/-- Sync state with an active season, a configured channel and that channel
present: the witness state of claim C4. -/
def c4state : SyncState :=
  { db := c1db, bot_messages := [], announcement_channel_id := some 1,
    channels := [{ id := 1, messages := [], next_id := 0 }] }

/- ============================================================ -/
/- Theorems                                                     -/
/- ============================================================ -/

lemma calculate_points_of_beyond_thirty {r : Int} (h : 30 < r) :
    DatabaseManager.calculate_points r = some 0 := by
  unfold DatabaseManager.calculate_points
  rw [if_neg (by omega), if_neg (by omega), if_neg (by omega), if_neg (by omega),
    if_neg (by omega)]

/-- C2 counterexample: the two point functions in the source disagree at
position 3 (db_manager gives 20, formatters gives 21), so they are not
extensionally equal. -/
theorem points_tables_disagree_at_three :
    DatabaseManager.calculate_points 3 = some 20 ∧
    MessageFormatter.calculate_points 3 = some 21 ∧
    DatabaseManager.calculate_points 3 ≠ MessageFormatter.calculate_points 3 := by
  refine ⟨rfl, rfl, ?_⟩
  decide

/-- C2 amended: for every position p at least 1 other than 3, the two point
functions DatabaseManager.calculate_points and
MessageFormatter.calculate_points return the same value; position 3 is the
only disagreement. -/
theorem points_tables_agree_away_from_three (p : Int) (h1 : 1 ≤ p) (h3 : p ≠ 3) :
    DatabaseManager.calculate_points p = MessageFormatter.calculate_points p := by
  by_cases h10 : p ≤ 10
  · interval_cases p <;> first | rfl | exact absurd rfl h3
  · unfold DatabaseManager.calculate_points MessageFormatter.calculate_points
    rw [if_neg h10, if_neg h10]

/-- Witness for the amended C2 theorem at position 5. -/
theorem points_tables_agree_away_from_three_witness :
    DatabaseManager.calculate_points 5 = MessageFormatter.calculate_points 5 :=
  points_tables_agree_away_from_three 5 (by decide) (by decide)

/-- C8 counterexample: at the non-negative rank 0 the points function does
not return a value at all - the dict lookup raises KeyError, modelled by
none - so the claim does not hold for every non-negative rank. -/
theorem calculate_points_zero_rank_raises :
    DatabaseManager.calculate_points 0 = none := by decide

/-- C8 amended: for all ranks at least 1 (rather than all non-negative
ranks) calculate_points returns a value, that value is non-increasing as
the rank increases, and it is 0 for every rank above 30. -/
theorem calculate_points_antitone (r1 r2 : Int) (h1 : 1 ≤ r1) (h12 : r1 ≤ r2) :
    ∃ v1 v2, DatabaseManager.calculate_points r1 = some v1 ∧
      DatabaseManager.calculate_points r2 = some v2 ∧ v2 ≤ v1 ∧ (30 < r2 → v2 = 0) := by
  by_cases h30 : r2 ≤ 30
  · have h2lb : 1 ≤ r2 := le_trans h1 h12
    interval_cases r2 <;> interval_cases r1 <;>
      exact ⟨_, _, rfl, rfl, by decide, by decide⟩
  · have h2 : DatabaseManager.calculate_points r2 = some 0 :=
      calculate_points_of_beyond_thirty (by omega)
    by_cases h130 : r1 ≤ 30
    · interval_cases r1 <;> exact ⟨_, 0, rfl, h2, by decide, fun _ => rfl⟩
    · exact ⟨0, 0, calculate_points_of_beyond_thirty (by omega), h2, le_refl 0, fun _ => rfl⟩

/-- Witness for the amended C8 theorem at ranks 2 and 31. -/
theorem calculate_points_antitone_witness :
    ∃ v1 v2, DatabaseManager.calculate_points 2 = some v1 ∧
      DatabaseManager.calculate_points 31 = some v2 ∧ v2 ≤ v1 ∧ ((30 : Int) < 31 → v2 = 0) :=
  calculate_points_antitone 2 31 (by decide) (by decide)

/-- C9: when the recorded offset exceeds the current file size (rotation or
truncation) and the file is non-empty, check_log_file resets the offset to
0, reads the entire current content, and leaves the offset equal to the new
file size. -/
theorem check_log_file_rotation (st : WatcherState) (content : List Char)
    (hrot : (content.length : Int) < st.last_position) (hne : content ≠ []) :
    LogWatcher.check_log_file st (some content) =
      ({ last_position := (content.length : Int) }, some content) := by
  have hlen : content.length ≠ 0 := fun h => hne (List.eq_nil_of_length_eq_zero h)
  have hzero : ¬ ((content.length : Int) = 0) := by
    exact_mod_cast hlen
  unfold LogWatcher.check_log_file
  simp only [if_pos hrot, if_neg hzero]
  rw [if_neg (by omega : ¬ (0 : Int) < 0)]
  simp [List.isEmpty_iff, hne]

/-- Witness for C9 at the spec instance: offset 500, file truncated to 200
bytes. -/
theorem check_log_file_rotation_witness :
    LogWatcher.check_log_file ⟨500⟩ (some (List.replicate 200 'a')) =
      (⟨200⟩, some (List.replicate 200 'a')) := by
  have h := check_log_file_rotation ⟨500⟩ (List.replicate 200 'a')
    (by decide) (by decide)
  rw [List.length_replicate] at h
  exact_mod_cast h

/-- C10 counterexample: on first run with no position file and a log file of
size 0, load_position leaves the offset 0, so the offset is not never 0. -/
theorem load_position_zero_size :
    (LogWatcher.load_position ⟨0⟩ { position_file := none, log_file := some [] }).last_position
      = 0 := rfl

/-- C10 amended: on first run - no saved position file - with a target log
file of size S, load_position sets the offset to exactly S (hence nonzero
whenever the log is non-empty), so log content written before first boot is
never processed. -/
theorem load_position_first_run (st : WatcherState) (log : List Char) :
    (LogWatcher.load_position st { position_file := none, log_file := some log }).last_position
        = (log.length : Int) ∧
      (log ≠ [] →
        (LogWatcher.load_position st
            { position_file := none, log_file := some log }).last_position ≠ 0) := by
  refine ⟨rfl, fun hne => ?_⟩
  have hlen : log.length ≠ 0 := fun h => hne (List.eq_nil_of_length_eq_zero h)
  simp only [LogWatcher.load_position]
  exact_mod_cast hlen

/-- Witness for the amended C10 theorem on a 2-byte log file. -/
theorem load_position_first_run_witness :
    (LogWatcher.load_position ⟨0⟩
        { position_file := none, log_file := some ['a', 'b'] }).last_position
        = ((['a', 'b'] : List Char).length : Int) ∧
      ((['a', 'b'] : List Char) ≠ [] →
        (LogWatcher.load_position ⟨0⟩
            { position_file := none, log_file := some ['a', 'b'] }).last_position ≠ 0) :=
  load_position_first_run ⟨0⟩ ['a', 'b']

/-- C4: whenever there is an active season, a configured announcement
channel, and the channel is reachable, update_all_messages aborts into the
catch-and-log branch with an AttributeError, because the body calls
DatabaseManager methods that the class never defines; the state comes back
untouched, so no slot message is edited or created and no TrackedMessage
mapping is written or deleted by the live-update loop. -/
theorem update_all_messages_attribute_error (st : SyncState) (season : SeasonRow) (cid : Nat)
    (ch : ChannelState)
    (hseason : get_active_season st.db = some season)
    (hcid : st.announcement_channel_id = some cid)
    (hch : st.channels.find? (fun c => c.id == cid) = some ch) :
    update_all_messages st =
        (st, UpdateOutcome.caughtError
          "AttributeError: get_season_leaderboard_with_projections") ∧
      "get_season_leaderboard_with_projections" ∉ databaseManagerMethods ∧
      "get_message_ids" ∉ databaseManagerMethods ∧
      "delete_message_id" ∉ databaseManagerMethods ∧
      "store_message_id" ∉ databaseManagerMethods := by
  refine ⟨?_, by decide, by decide, by decide, by decide⟩
  unfold update_all_messages
  simp only [hseason, hcid, hch]
  rw [if_neg (by decide)]

/-- Witness for C4 at a concrete sync state. -/
theorem update_all_messages_attribute_error_witness :
    update_all_messages c4state =
        (c4state, UpdateOutcome.caughtError
          "AttributeError: get_season_leaderboard_with_projections") ∧
      "get_season_leaderboard_with_projections" ∉ databaseManagerMethods ∧
      "get_message_ids" ∉ databaseManagerMethods ∧
      "delete_message_id" ∉ databaseManagerMethods ∧
      "store_message_id" ∉ databaseManagerMethods :=
  update_all_messages_attribute_error c4state exampleSeason 1 ⟨1, [], 0⟩ rfl rfl rfl

lemma filter_delete_message_id (rows : List TrackedMessage) (mtype : String) (sid : Nat) :
    (delete_message_id rows mtype sid).filter
      (fun r => r.season_id == sid && r.message_type == mtype) = [] := by
  rw [List.filter_eq_nil_iff]
  intro r hr
  have hmem := List.mem_filter.mp hr
  have h2 := hmem.2
  simp only [Bool.not_eq_eq_eq_not, Bool.not_true, Bool.and_eq_false_imp,
    beq_iff_eq] at h2
  simp only [Bool.and_eq_true, beq_iff_eq, not_and]
  intro hsid htype
  have h3 := h2 htype
  rw [hsid] at h3
  simp at h3

lemma get_message_ids_store (rows1 : List TrackedMessage) (mtype : String) (cid mid sid : Nat)
    (h : rows1.filter (fun r => r.season_id == sid && r.message_type == mtype) = []) :
    get_message_ids (store_message_id rows1 mtype cid mid sid) sid mtype =
      some { message_type := mtype, channel_id := cid, message_id := mid, season_id := sid } := by
  unfold get_message_ids store_message_id
  rw [List.find?_append]
  have hnone : rows1.find? (fun r => r.season_id == sid && r.message_type == mtype) = none := by
    rw [List.find?_eq_none]
    intro x hx
    exact List.filter_eq_nil_iff.mp h x hx
  rw [hnone]
  simp [List.find?_cons]

lemma lookup_append_of_none (l1 l2 : List (Nat × Nat)) (k : Nat) (h : l1.lookup k = none) :
    (l1 ++ l2).lookup k = l2.lookup k := by
  induction l1 with
  | nil => rfl
  | cons a l ih =>
    obtain ⟨a1, a2⟩ := a
    rw [List.lookup_cons] at h
    rw [List.cons_append, List.lookup_cons]
    cases hk : (k == a1) with
    | true => rw [hk] at h; exact Option.noConfusion h
    | false => rw [hk] at h; exact ih h

lemma update_message_recreates (ch : ChannelState) (rows : List TrackedMessage)
    (mtype : String) (sid : Nat) (embed : Nat) (info : TrackedMessage)
    (hinfo : get_message_ids rows sid mtype = some info)
    (hgone : fetch_message ch info.message_id = none) :
    update_message ch rows mtype sid embed =
      ((send_message ch embed).1,
        store_message_id (delete_message_id rows mtype sid) mtype ch.id ch.next_id sid,
        SlotOutcome.created ch.next_id) := by
  unfold update_message
  simp only [hinfo, hgone]
  rfl

lemma update_message_edits (ch : ChannelState) (rows : List TrackedMessage)
    (mtype : String) (sid : Nat) (embed : Nat) (info : TrackedMessage) (c : Nat)
    (hinfo : get_message_ids rows sid mtype = some info)
    (hfound : fetch_message ch info.message_id = some c) :
    update_message ch rows mtype sid embed =
      (edit_message ch info.message_id embed, rows, SlotOutcome.edited) := by
  unfold update_message
  simp only [hinfo, hfound]

/-- C3: when the TrackedMessage mapping of a slot points at a remote message
id that no longer exists (fetch gives NotFound), one pass of the slot
update deletes the stale mapping, sends exactly one new message, and stores
the new channel and message id as the unique mapping of that slot and
season; an immediately following pass edits that new message in place and
does not create another. -/
theorem reconcile_self_heals (ch : ChannelState) (rows : List TrackedMessage)
    (mtype : String) (sid : Nat) (embed embed2 : Nat) (info : TrackedMessage)
    (hinfo : get_message_ids rows sid mtype = some info)
    (hgone : fetch_message ch info.message_id = none)
    (hfresh : fetch_message ch ch.next_id = none) :
    (update_message ch rows mtype sid embed).2.2 = SlotOutcome.created ch.next_id ∧
    (update_message ch rows mtype sid embed).1.messages
        = ch.messages ++ [(ch.next_id, embed)] ∧
    ((update_message ch rows mtype sid embed).2.1.filter
        (fun r => r.season_id == sid && r.message_type == mtype))
        = [{ message_type := mtype, channel_id := ch.id, message_id := ch.next_id,
             season_id := sid }] ∧
    (update_message (update_message ch rows mtype sid embed).1
        (update_message ch rows mtype sid embed).2.1 mtype sid embed2).2.2
        = SlotOutcome.edited ∧
    (update_message (update_message ch rows mtype sid embed).1
        (update_message ch rows mtype sid embed).2.1 mtype sid embed2).2.1
        = (update_message ch rows mtype sid embed).2.1 ∧
    (update_message (update_message ch rows mtype sid embed).1
        (update_message ch rows mtype sid embed).2.1 mtype sid embed2).1.messages.length
        = (update_message ch rows mtype sid embed).1.messages.length := by
  have hfd := filter_delete_message_id rows mtype sid
  have hpass1 := update_message_recreates ch rows mtype sid embed info hinfo hgone
  have hfind2 : get_message_ids (update_message ch rows mtype sid embed).2.1 sid mtype =
      some { message_type := mtype, channel_id := ch.id, message_id := ch.next_id,
             season_id := sid } := by
    rw [hpass1]
    exact get_message_ids_store _ mtype ch.id ch.next_id sid hfd
  have hfetch2 : fetch_message (update_message ch rows mtype sid embed).1 ch.next_id
      = some embed := by
    rw [hpass1]
    show (ch.messages ++ [(ch.next_id, embed)]).lookup ch.next_id = some embed
    rw [lookup_append_of_none _ _ _ hfresh]
    simp [List.lookup_cons]
  have hpass2 := update_message_edits (update_message ch rows mtype sid embed).1
    (update_message ch rows mtype sid embed).2.1 mtype sid embed2
    { message_type := mtype, channel_id := ch.id, message_id := ch.next_id,
      season_id := sid } embed hfind2 hfetch2
  refine ⟨by rw [hpass1], ?_, ?_, by rw [hpass2], by rw [hpass2], ?_⟩
  · rw [hpass1]
    rfl
  · rw [hpass1]
    unfold store_message_id
    rw [List.filter_append, hfd]
    simp
  · rw [hpass2]
    show (((update_message ch rows mtype sid embed).1.messages.map _)).length = _
    rw [List.length_map]

/-- Witness for C3 at a concrete channel and stale mapping. -/
theorem reconcile_self_heals_witness :
    (update_message c3channel c3rows "season_summary" 7 11).2.2
        = SlotOutcome.created c3channel.next_id ∧
    (update_message c3channel c3rows "season_summary" 7 11).1.messages
        = c3channel.messages ++ [(c3channel.next_id, 11)] ∧
    ((update_message c3channel c3rows "season_summary" 7 11).2.1.filter
        (fun r => r.season_id == 7 && r.message_type == "season_summary"))
        = [{ message_type := "season_summary", channel_id := c3channel.id,
             message_id := c3channel.next_id, season_id := 7 }] ∧
    (update_message (update_message c3channel c3rows "season_summary" 7 11).1
        (update_message c3channel c3rows "season_summary" 7 11).2.1 "season_summary" 7 22).2.2
        = SlotOutcome.edited ∧
    (update_message (update_message c3channel c3rows "season_summary" 7 11).1
        (update_message c3channel c3rows "season_summary" 7 11).2.1 "season_summary" 7 22).2.1
        = (update_message c3channel c3rows "season_summary" 7 11).2.1 ∧
    (update_message (update_message c3channel c3rows "season_summary" 7 11).1
        (update_message c3channel c3rows "season_summary" 7 11).2.1 "season_summary" 7
        22).1.messages.length
        = (update_message c3channel c3rows "season_summary" 7 11).1.messages.length :=
  reconcile_self_heals c3channel c3rows "season_summary" 7 11 22
    { message_type := "season_summary", channel_id := 1, message_id := 99, season_id := 7 }
    rfl rfl rfl

lemma scoreTotal_cons (s : PlayerScoreRow) (rest : List PlayerScoreRow) (sid2 : Nat)
    (p2 : String) :
    scoreTotal (s :: rest) sid2 p2 =
      (if s.season_id = sid2 ∧ s.player_name = p2 then s.total_points else 0)
        + scoreTotal rest sid2 p2 := by
  unfold scoreTotal
  rw [List.filter_cons]
  by_cases h : (s.season_id == sid2 && s.player_name == p2) = true
  · rw [if_pos h, if_pos (by simpa using h)]
    simp
  · rw [if_neg h, if_neg (by simpa using h)]
    simp

lemma scoreCount_cons (s : PlayerScoreRow) (rest : List PlayerScoreRow) (sid2 : Nat)
    (p2 : String) :
    scoreCount (s :: rest) sid2 p2 =
      (if s.season_id = sid2 ∧ s.player_name = p2 then s.courses_completed else 0)
        + scoreCount rest sid2 p2 := by
  unfold scoreCount
  rw [List.filter_cons]
  by_cases h : (s.season_id == sid2 && s.player_name == p2) = true
  · rw [if_pos h, if_pos (by simpa using h)]
    simp
  · rw [if_neg h, if_neg (by simpa using h)]
    simp

lemma resultsSum_append (rows : List CourseResultRow) (row : CourseResultRow) (sid2 : Nat)
    (p2 : String) :
    resultsSum (rows ++ [row]) sid2 p2 =
      resultsSum rows sid2 p2
        + (if row.season_id = sid2 ∧ row.player_name = p2 then row.points else 0) := by
  unfold resultsSum
  rw [List.filter_append, List.map_append, List.sum_append, List.filter_cons]
  by_cases h : (row.season_id == sid2 && row.player_name == p2) = true
  · rw [if_pos h, if_pos (by simpa using h)]
    simp
  · rw [if_neg h, if_neg (by simpa using h)]
    simp

lemma resultsCount_append (rows : List CourseResultRow) (row : CourseResultRow) (sid2 : Nat)
    (p2 : String) :
    resultsCount (rows ++ [row]) sid2 p2 =
      resultsCount rows sid2 p2
        + (if row.season_id = sid2 ∧ row.player_name = p2 then 1 else 0) := by
  unfold resultsCount
  rw [List.filter_append, List.length_append, List.filter_cons]
  by_cases h : (row.season_id == sid2 && row.player_name == p2) = true
  · rw [if_pos h, if_pos (by simpa using h)]
    simp
  · rw [if_neg h, if_neg (by simpa using h)]
    simp

lemma scoreTotal_upsert (scores : List PlayerScoreRow) (sid : Nat) (player : String)
    (points : Int) (sid2 : Nat) (p2 : String) :
    scoreTotal (upsert_player_score scores sid player points) sid2 p2 =
      scoreTotal scores sid2 p2 + (if sid2 = sid ∧ p2 = player then points else 0) := by
  induction scores with
  | nil =>
    simp only [upsert_player_score, scoreTotal_cons]
    by_cases h : sid2 = sid ∧ p2 = player
    · rw [if_pos ⟨h.1.symm, h.2.symm⟩, if_pos h]
      simp [scoreTotal]
    · rw [if_neg (fun hc => h ⟨hc.1.symm, hc.2.symm⟩), if_neg h]
      simp [scoreTotal]
  | cons s rest ih =>
    simp only [upsert_player_score]
    by_cases hb : (s.season_id == sid && s.player_name == player) = true
    · have hs : s.season_id = sid ∧ s.player_name = player := by simpa using hb
      rw [if_pos hb, scoreTotal_cons, scoreTotal_cons]
      simp only
      by_cases hK : s.season_id = sid2 ∧ s.player_name = p2
      · rw [if_pos hK, if_pos hK,
          if_pos ⟨by rw [← hK.1, hs.1], by rw [← hK.2, hs.2]⟩]
        ring
      · rw [if_neg hK, if_neg hK,
          if_neg (fun hc => hK ⟨by rw [hs.1, hc.1], by rw [hs.2, hc.2]⟩)]
        ring
    · rw [if_neg hb, scoreTotal_cons, scoreTotal_cons, ih]
      ring

lemma scoreCount_upsert (scores : List PlayerScoreRow) (sid : Nat) (player : String)
    (points : Int) (sid2 : Nat) (p2 : String) :
    scoreCount (upsert_player_score scores sid player points) sid2 p2 =
      scoreCount scores sid2 p2 + (if sid2 = sid ∧ p2 = player then 1 else 0) := by
  induction scores with
  | nil =>
    simp only [upsert_player_score, scoreCount_cons]
    by_cases h : sid2 = sid ∧ p2 = player
    · rw [if_pos ⟨h.1.symm, h.2.symm⟩, if_pos h]
      simp [scoreCount]
    · rw [if_neg (fun hc => h ⟨hc.1.symm, hc.2.symm⟩), if_neg h]
      simp [scoreCount]
  | cons s rest ih =>
    simp only [upsert_player_score]
    by_cases hb : (s.season_id == sid && s.player_name == player) = true
    · have hs : s.season_id = sid ∧ s.player_name = player := by simpa using hb
      rw [if_pos hb, scoreCount_cons, scoreCount_cons]
      simp only
      by_cases hK : s.season_id = sid2 ∧ s.player_name = p2
      · rw [if_pos hK, if_pos hK,
          if_pos ⟨by rw [← hK.1, hs.1], by rw [← hK.2, hs.2]⟩]
        omega
      · rw [if_neg hK, if_neg hK,
          if_neg (fun hc => hK ⟨by rw [hs.1, hc.1], by rw [hs.2, hc.2]⟩)]
        omega
    · rw [if_neg hb, scoreCount_cons, scoreCount_cons, ih]
      omega

lemma event_points_cons (r : Standing) (rest : List Standing) (p : String) :
    event_points (r :: rest) p =
      (if r.username = p then (DatabaseManager.calculate_points r.rank).getD 0 else 0)
        + event_points rest p := by
  unfold event_points
  rw [List.filter_cons]
  by_cases h : (r.username == p) = true
  · rw [if_pos h, if_pos (by simpa using h)]
    simp
  · rw [if_neg h, if_neg (by simpa using h)]
    simp

lemma event_count_cons (r : Standing) (rest : List Standing) (p : String) :
    event_count (r :: rest) p =
      (if r.username = p then 1 else 0) + event_count rest p := by
  unfold event_count
  rw [List.filter_cons]
  by_cases h : (r.username == p) = true
  · rw [if_pos h, if_pos (by simpa using h)]
    simp only [List.length_cons]
    omega
  · rw [if_neg h, if_neg (by simpa using h)]
    simp

lemma expire_fold_spec (sid : Nat) (cname : String) (l : List Standing) :
    ∀ acc : BotDB, (∀ r ∈ l, (DatabaseManager.calculate_points r.rank).isSome) →
      ∃ out, l.foldlM (expire_step sid cname) acc = some out ∧
        out.seasons = acc.seasons ∧
        out.season_courses = acc.season_courses ∧
        out.course_results.length = acc.course_results.length + l.length ∧
        (∀ sid2 p, scoreTotal out.player_scores sid2 p =
            scoreTotal acc.player_scores sid2 p
              + (if sid2 = sid then event_points l p else 0)) ∧
        (∀ sid2 p, scoreCount out.player_scores sid2 p =
            scoreCount acc.player_scores sid2 p
              + (if sid2 = sid then event_count l p else 0)) ∧
        (∀ sid2 p, resultsSum out.course_results sid2 p =
            resultsSum acc.course_results sid2 p
              + (if sid2 = sid then event_points l p else 0)) ∧
        (∀ sid2 p, resultsCount out.course_results sid2 p =
            resultsCount acc.course_results sid2 p
              + (if sid2 = sid then event_count l p else 0)) := by
  induction l with
  | nil =>
    intro acc _
    refine ⟨acc, rfl, rfl, rfl, by simp, ?_, ?_, ?_, ?_⟩ <;>
      intro sid2 p <;> simp [event_points, event_count]
  | cons r rest ih =>
    intro acc hval
    obtain ⟨pts, hpts⟩ := Option.isSome_iff_exists.mp (hval r (List.mem_cons_self r rest))
    have hstep : expire_step sid cname acc r = some (apply_result sid cname acc r pts) := by
      unfold expire_step
      rw [hpts]
      rfl
    obtain ⟨out, hout, h1, h2, h3, h4, h5, h6, h7⟩ :=
      ih (apply_result sid cname acc r pts) (fun x hx => hval x (List.mem_cons_of_mem r hx))
    have hgd : (DatabaseManager.calculate_points r.rank).getD 0 = pts := by
      rw [hpts]
      rfl
    refine ⟨out, ?_, h1, h2, ?_, ?_, ?_, ?_, ?_⟩
    · rw [List.foldlM_cons, hstep]
      simpa using hout
    · rw [h3]
      have hlen : (apply_result sid cname acc r pts).course_results.length
          = acc.course_results.length + 1 := by
        show (acc.course_results ++ [_]).length = _
        rw [List.length_append]
        rfl
      rw [hlen, List.length_cons]
      omega
    · intro sid2 p
      rw [h4]
      show scoreTotal (upsert_player_score acc.player_scores sid r.username pts) sid2 p + _ = _
      rw [scoreTotal_upsert]
      by_cases hsid : sid2 = sid
      · rw [if_pos hsid, if_pos hsid, event_points_cons, hgd]
        by_cases hp : p = r.username
        · rw [if_pos ⟨hsid, hp⟩, if_pos hp.symm]
          ring
        · rw [if_neg (fun hc => hp hc.2), if_neg (fun hc => hp hc.symm)]
          ring
      · rw [if_neg hsid, if_neg hsid, if_neg (fun hc => hsid hc.1)]
        try ring
    · intro sid2 p
      rw [h5]
      show scoreCount (upsert_player_score acc.player_scores sid r.username pts) sid2 p + _ = _
      rw [scoreCount_upsert]
      by_cases hsid : sid2 = sid
      · rw [if_pos hsid, if_pos hsid, event_count_cons]
        by_cases hp : p = r.username
        · rw [if_pos ⟨hsid, hp⟩, if_pos hp.symm]
          omega
        · rw [if_neg (fun hc => hp hc.2), if_neg (fun hc => hp hc.symm)]
          omega
      · rw [if_neg hsid, if_neg hsid, if_neg (fun hc => hsid hc.1)]
        try omega
    · intro sid2 p
      rw [h6]
      show resultsSum (acc.course_results ++ [_]) sid2 p + _ = _
      rw [resultsSum_append]
      simp only
      by_cases hsid : sid2 = sid
      · rw [if_pos hsid, if_pos hsid, event_points_cons, hgd]
        by_cases hp : p = r.username
        · rw [if_pos ⟨hsid.symm, hp.symm⟩, if_pos hp.symm]
          ring
        · rw [if_neg (fun hc => hp hc.2.symm), if_neg (fun hc => hp hc.symm)]
          ring
      · rw [if_neg hsid, if_neg hsid, if_neg (fun hc => hsid hc.1.symm)]
        try ring
    · intro sid2 p
      rw [h7]
      show resultsCount (acc.course_results ++ [_]) sid2 p + _ = _
      rw [resultsCount_append]
      simp only
      by_cases hsid : sid2 = sid
      · rw [if_pos hsid, if_pos hsid, event_count_cons]
        by_cases hp : p = r.username
        · rw [if_pos ⟨hsid.symm, hp.symm⟩, if_pos hp.symm]
          omega
        · rw [if_neg (fun hc => hp hc.2.symm), if_neg (fun hc => hp hc.symm)]
          omega
      · rw [if_neg hsid, if_neg hsid, if_neg (fun hc => hsid hc.1.symm)]
        try omega

lemma expire_fold_isSome (sid : Nat) (cname : String) (l : List Standing) :
    ∀ acc out, l.foldlM (expire_step sid cname) acc = some out →
      ∀ r ∈ l, (DatabaseManager.calculate_points r.rank).isSome := by
  induction l with
  | nil =>
    intro acc out _ r hr
    exact absurd hr (List.not_mem_nil r)
  | cons a rest ih =>
    intro acc out h r hr
    rw [List.foldlM_cons] at h
    cases hc : DatabaseManager.calculate_points a.rank with
    | none =>
      have hstep : expire_step sid cname acc a = none := by
        unfold expire_step
        rw [hc]
        rfl
      rw [hstep] at h
      exact absurd h (by simp)
    | some pts =>
      have hstep : expire_step sid cname acc a = some (apply_result sid cname acc a pts) := by
        unfold expire_step
        rw [hc]
        rfl
      rw [hstep] at h
      rcases List.mem_cons.mp hr with h1 | h1
      · rw [h1, hc]
        rfl
      · exact ih _ out (by simpa using h) r h1

lemma expire_course_spec (db : BotDB) (full : String) (ev : ExpiryEvent) (season : SeasonRow)
    (hact : get_active_season db = some season)
    (hval : ∀ r ∈ ev.standings, (DatabaseManager.calculate_points r.rank).isSome) :
    ∃ out, expire_course db full ev = some out ∧
      out.seasons = db.seasons ∧
      out.course_results.length = db.course_results.length + ev.standings.length ∧
      (∀ sid2 p, scoreTotal out.player_scores sid2 p =
          scoreTotal db.player_scores sid2 p
            + (if sid2 = season.id then event_points ev.standings p else 0)) ∧
      (∀ sid2 p, scoreCount out.player_scores sid2 p =
          scoreCount db.player_scores sid2 p
            + (if sid2 = season.id then event_count ev.standings p else 0)) ∧
      (∀ sid2 p, resultsSum out.course_results sid2 p =
          resultsSum db.course_results sid2 p
            + (if sid2 = season.id then event_points ev.standings p else 0)) ∧
      (∀ sid2 p, resultsCount out.course_results sid2 p =
          resultsCount db.course_results sid2 p
            + (if sid2 = season.id then event_count ev.standings p else 0)) := by
  obtain ⟨out, hout, h1, h2, h3, h4, h5, h6, h7⟩ :=
    expire_fold_spec season.id (extract_course_name full) ev.standings
      { db with season_courses := db.season_courses.map (fun c =>
        if c.full_course_name == full && c.season_id == season.id then
          { c with expired := true, final_standings := some ev } else c) } hval
  refine ⟨out, ?_, h1, h3, h4, h5, h6, h7⟩
  unfold expire_course
  rw [hact]
  exact hout

/-- C5: course-result insertion on expiry is not idempotent.  Running
expire_course twice with the same event appends a second, duplicate set of
course_results rows (nothing in the schema prevents it) and adds the same
points and completion counts to the player accumulators again, so the
increments double and the second state differs from the first. -/
theorem expire_course_not_idempotent (db : BotDB) (full : String) (ev : ExpiryEvent)
    (season : SeasonRow)
    (hact : get_active_season db = some season)
    (hval : ∀ r ∈ ev.standings, (DatabaseManager.calculate_points r.rank).isSome)
    (hne : ev.standings ≠ []) :
    ∃ db1 db2, expire_course db full ev = some db1 ∧ expire_course db1 full ev = some db2 ∧
      db1.course_results.length = db.course_results.length + ev.standings.length ∧
      db2.course_results.length = db.course_results.length + 2 * ev.standings.length ∧
      (∀ p, scoreTotal db1.player_scores season.id p =
          scoreTotal db.player_scores season.id p + event_points ev.standings p) ∧
      (∀ p, scoreTotal db2.player_scores season.id p =
          scoreTotal db.player_scores season.id p + 2 * event_points ev.standings p) ∧
      (∀ p, scoreCount db2.player_scores season.id p =
          scoreCount db.player_scores season.id p + 2 * event_count ev.standings p) ∧
      (∀ p, resultsSum db2.course_results season.id p =
          resultsSum db.course_results season.id p + 2 * event_points ev.standings p) ∧
      db2 ≠ db1 := by
  obtain ⟨db1, ho1, hs1, hl1, ht1, hc1, hrs1, hrc1⟩ :=
    expire_course_spec db full ev season hact hval
  have hact1 : get_active_season db1 = some season := by
    unfold get_active_season at hact ⊢
    rw [hs1]
    exact hact
  obtain ⟨db2, ho2, hs2, hl2, ht2, hc2, hrs2, hrc2⟩ :=
    expire_course_spec db1 full ev season hact1 hval
  refine ⟨db1, db2, ho1, ho2, hl1, ?_, ?_, ?_, ?_, ?_, ?_⟩
  · rw [hl2, hl1]
    omega
  · intro p
    have h1 := ht1 season.id p
    rw [if_pos rfl] at h1
    exact h1
  · intro p
    have h1 := ht1 season.id p
    have h2 := ht2 season.id p
    rw [if_pos rfl] at h1 h2
    rw [h2, h1]
    ring
  · intro p
    have h1 := hc1 season.id p
    have h2 := hc2 season.id p
    rw [if_pos rfl] at h1 h2
    rw [h2, h1]
    omega
  · intro p
    have h1 := hrs1 season.id p
    have h2 := hrs2 season.id p
    rw [if_pos rfl] at h1 h2
    rw [h2, h1]
    ring
  · intro he
    rw [he, hl1] at hl2
    have hn : ev.standings.length = 0 := by omega
    exact hne (List.eq_nil_of_length_eq_zero hn)

/-- Witness for C5: one season, a one-entry standings event applied twice. -/
theorem expire_course_not_idempotent_witness :
    ∃ db1 db2, expire_course c5db "racearena_pro (dash1)" c5event = some db1 ∧
      expire_course db1 "racearena_pro (dash1)" c5event = some db2 ∧
      db1.course_results.length = c5db.course_results.length + c5event.standings.length ∧
      db2.course_results.length = c5db.course_results.length + 2 * c5event.standings.length ∧
      (∀ p, scoreTotal db1.player_scores exampleSeason.id p =
          scoreTotal c5db.player_scores exampleSeason.id p + event_points c5event.standings p) ∧
      (∀ p, scoreTotal db2.player_scores exampleSeason.id p =
          scoreTotal c5db.player_scores exampleSeason.id p
            + 2 * event_points c5event.standings p) ∧
      (∀ p, scoreCount db2.player_scores exampleSeason.id p =
          scoreCount c5db.player_scores exampleSeason.id p
            + 2 * event_count c5event.standings p) ∧
      (∀ p, resultsSum db2.course_results exampleSeason.id p =
          resultsSum c5db.course_results exampleSeason.id p
            + 2 * event_points c5event.standings p) ∧
      db2 ≠ db1 :=
  expire_course_not_idempotent c5db "racearena_pro (dash1)" c5event exampleSeason rfl
    (by decide) (by decide)

lemma scoresInv_of_fields (db db2 : BotDB) (hs : db2.player_scores = db.player_scores)
    (hr : db2.course_results = db.course_results) (h : ScoresInv db) : ScoresInv db2 := by
  intro sid p
  unfold ScoresInv at h
  rw [hs, hr]
  exact h sid p

lemma scoresInv_empty : ScoresInv emptyDB := by
  intro sid p
  exact ⟨rfl, rfl⟩

lemma scoresInv_create (db : BotDB) (n : Int) (t : Option String) (now : Int)
    (h : ScoresInv db) : ScoresInv ((create_season db n t now).getD db) := by
  cases hc : create_season db n t now with
  | none => simpa using h
  | some out =>
    simp only [Option.getD]
    unfold create_season at hc
    split at hc
    · exact absurd hc (by simp)
    · have hout := Option.some.inj hc
      refine scoresInv_of_fields db out ?_ ?_ h <;> rw [← hout]

lemma scoresInv_expire (db : BotDB) (full : String) (ev : ExpiryEvent) (h : ScoresInv db) :
    ScoresInv ((expire_course db full ev).getD db) := by
  cases ho : expire_course db full ev with
  | none => simpa using h
  | some out =>
    simp only [Option.getD]
    cases hact : get_active_season db with
    | none =>
      have hdb : some db = some out := by
        unfold expire_course at ho
        rw [hact] at ho
        exact ho
      rw [← Option.some.inj hdb]
      exact h
    | some season =>
      have hval : ∀ r ∈ ev.standings, (DatabaseManager.calculate_points r.rank).isSome := by
        unfold expire_course at ho
        rw [hact] at ho
        exact expire_fold_isSome season.id (extract_course_name full) ev.standings _ out ho
      obtain ⟨out2, ho2, hs2, hl2, ht2, hc2, hrs2, hrc2⟩ :=
        expire_course_spec db full ev season hact hval
      have hsame : out2 = out := by
        rw [ho] at ho2
        exact Option.some.inj ho2.symm
      rw [← hsame]
      intro sid p
      refine ⟨?_, ?_⟩
      · rw [ht2 sid p, hrs2 sid p, (h sid p).1]
      · rw [hc2 sid p, hrc2 sid p, (h sid p).2]

/-- C7: in every reachable ledger state - in particular after every
expire_course - the accumulator row of each season and player carries
exactly the sum of the points of that player s course_results rows in the
season as total_points, and exactly their number as courses_completed; the
upsert adds exactly the points of each inserted result row. -/
theorem ledger_scores_invariant (db : BotDB) (h : Reachable db) : ScoresInv db := by
  induction h with
  | init => exact scoresInv_empty
  | create db n t now _ ih => exact scoresInv_create db n t now ih
  | stop db sid now _ ih => exact scoresInv_of_fields db _ rfl rfl ih
  | add db sid full secret _ ih => exact scoresInv_of_fields db _ rfl rfl ih
  | remove db sid full _ ih => exact scoresInv_of_fields db _ rfl rfl ih
  | expire db full ev _ ih => exact scoresInv_expire db full ev ih

/-- Witness for C7 at the freshly initialized database. -/
theorem ledger_scores_invariant_witness : Reachable emptyDB ∧ ScoresInv emptyDB :=
  ⟨Reachable.init, ledger_scores_invariant emptyDB Reachable.init⟩

lemma mem_firstSeenAcc (a : String) (l : List String) :
    ∀ seen, a ∈ firstSeenAcc seen l ↔ a ∈ l ∧ ¬ a ∈ seen := by
  induction l with
  | nil =>
    intro seen
    simp [firstSeenAcc]
  | cons p rest ih =>
    intro seen
    unfold firstSeenAcc
    by_cases hc : seen.contains p
    · rw [if_pos hc, ih seen]
      constructor
      · intro ⟨h1, h2⟩
        exact ⟨List.mem_cons_of_mem p h1, h2⟩
      · intro ⟨h1, h2⟩
        rcases List.mem_cons.mp h1 with h | h
        · subst h
          exact absurd (by simpa using hc : a ∈ seen) h2
        · exact ⟨h, h2⟩
    · rw [if_neg hc]
      constructor
      · intro h1
        rcases List.mem_cons.mp h1 with h | h
        · subst h
          exact ⟨List.mem_cons_self a rest, fun hs => hc (by simpa using hs)⟩
        · obtain ⟨h2, h3⟩ := (ih (p :: seen)).mp h
          exact ⟨List.mem_cons_of_mem p h2,
            fun hs => h3 (List.mem_cons_of_mem p hs)⟩
      · intro ⟨h1, h2⟩
        rcases List.mem_cons.mp h1 with h | h
        · subst h
          exact List.mem_cons_self a _
        · by_cases hap : a = p
          · subst hap
            exact List.mem_cons_self a _
          · refine List.mem_cons_of_mem p ((ih (p :: seen)).mpr ⟨h, ?_⟩)
            intro hs
            rcases List.mem_cons.mp hs with hx | hx
            · exact hap hx
            · exact h2 hx

lemma mem_firstSeen (a : String) (l : List String) : a ∈ firstSeen l ↔ a ∈ l := by
  unfold firstSeen
  rw [mem_firstSeenAcc]
  simp

lemma filterMap_some_eq_map {α β : Type} (f : α → β) (l : List α) :
    l.filterMap (fun a => some (f a)) = l.map f := by
  induction l with
  | nil => rfl
  | cons a l ih => simp [List.filterMap_cons, ih]

lemma leaderboard_pre_eq_map (db : BotDB) (sid : Nat) :
    leaderboard_pre db sid =
      (firstSeen ((season_rows db sid).map (fun r => r.player_name))).map
        (fun p => leaderboard_entry (best_courses_count (total_courses db sid)) p
          (player_results_for (season_rows db sid) p)) := by
  unfold leaderboard_pre
  simp only [min_courses_required, ne_eq, not_true_eq_false, false_and, if_false,
    filterMap_some_eq_map]

lemma mem_enumFrom_positions (l : List LBEntry) :
    ∀ (n : Nat) (e : LBEntry), e ∈ l →
      ∃ e2 ∈ (l.enumFrom n).map (fun x => { x.2 with position := x.1 + 1 }),
        e2.username = e.username ∧ e2.total_points = e.total_points ∧
        e2.courses_completed = e.courses_completed ∧
        e2.courses_counted = e.courses_counted := by
  induction l with
  | nil =>
    intro n e he
    exact absurd he (List.not_mem_nil e)
  | cons a l ih =>
    intro n e he
    rcases List.mem_cons.mp he with h | h
    · subst h
      refine ⟨{ e with position := n + 1 }, ?_, rfl, rfl, rfl, rfl⟩
      simp [List.enumFrom]
    · obtain ⟨e2, hmem, hprops⟩ := ih (n + 1) e h
      refine ⟨e2, ?_, hprops⟩
      simp only [List.enumFrom, List.map_cons]
      exact List.mem_cons_of_mem _ hmem

lemma mem_add_positions (l : List LBEntry) (e : LBEntry) (he : e ∈ l) :
    ∃ e2 ∈ add_positions l, e2.username = e.username ∧ e2.total_points = e.total_points ∧
      e2.courses_completed = e.courses_completed ∧
      e2.courses_counted = e.courses_counted := by
  unfold add_positions List.enum
  exact mem_enumFrom_positions l 0 e he

lemma leaderboard_entry_mem (db : BotDB) (sid : Nat) (p : String)
    (hc : total_courses db sid ≠ 0)
    (hp : p ∈ (season_rows db sid).map (fun r => r.player_name)) :
    ∃ e ∈ get_season_leaderboard db sid, e.username = p ∧
      e.total_points = (leaderboard_entry (best_courses_count (total_courses db sid)) p
        (player_results_for (season_rows db sid) p)).total_points ∧
      e.courses_completed = (leaderboard_entry (best_courses_count (total_courses db sid)) p
        (player_results_for (season_rows db sid) p)).courses_completed ∧
      e.courses_counted = (leaderboard_entry (best_courses_count (total_courses db sid)) p
        (player_results_for (season_rows db sid) p)).courses_counted := by
  unfold get_season_leaderboard
  rw [if_neg hc]
  have hpre : (leaderboard_entry (best_courses_count (total_courses db sid)) p
      (player_results_for (season_rows db sid) p)) ∈ leaderboard_pre db sid := by
    rw [leaderboard_pre_eq_map]
    exact List.mem_map_of_mem _ ((mem_firstSeen p _).mpr hp)
  have hsorted : (leaderboard_entry (best_courses_count (total_courses db sid)) p
      (player_results_for (season_rows db sid) p))
      ∈ List.insertionSort finalOrder (leaderboard_pre db sid) :=
    ((List.perm_insertionSort finalOrder (leaderboard_pre db sid)).mem_iff).mpr hpre
  obtain ⟨e2, hmem, hu, ht, hcc, hct⟩ := mem_add_positions _ _ hsorted
  exact ⟨e2, hmem, hu, ht, hcc, hct⟩

/-- C1 counterexample: the minimum-participation gate inside
get_season_leaderboard is the hardcoded constant 0 and the configured value
is never read, so with a configured gate of 3 the player bob, who completed
exactly 2 courses of the 3-course season of c1db, still appears in the
returned leaderboard instead of being excluded. -/
theorem gated_player_still_listed :
    min_courses_required = 0 ∧
    ∃ e ∈ get_season_leaderboard c1db 1, e.username = "bob" ∧ e.courses_completed = 2 := by
  decide

/-- C1 amended: get_season_leaderboard applies no minimum-participation gate
at all (the constant at src/db_manager.py line 355 is 0 and the configured
minCoursesRequired is ignored): every player with at least one course
result in a season with at least one course appears in the leaderboard,
whatever threshold is configured. -/
theorem leaderboard_ignores_min_gate (db : BotDB) (sid : Nat) (p : String)
    (r : CourseResultRow)
    (hc : total_courses db sid ≠ 0)
    (hr : r ∈ db.course_results) (hsid : r.season_id = sid) (hp : r.player_name = p) :
    min_courses_required = 0 ∧ ∃ e ∈ get_season_leaderboard db sid, e.username = p := by
  refine ⟨rfl, ?_⟩
  have hrin : r ∈ season_rows db sid := by
    unfold season_rows
    rw [(List.perm_insertionSort rowOrder _).mem_iff, List.mem_filter]
    exact ⟨hr, by simp [hsid]⟩
  have hpmem : p ∈ (season_rows db sid).map (fun r => r.player_name) := by
    rw [List.mem_map]
    exact ⟨r, hrin, hp⟩
  obtain ⟨e, hmem, hu, _, _, _⟩ := leaderboard_entry_mem db sid p hc hpmem
  exact ⟨e, hmem, hu⟩

/-- Witness for the amended C1 theorem: bob, with two completed courses,
appears in the leaderboard of c1db. -/
theorem leaderboard_ignores_min_gate_witness :
    min_courses_required = 0 ∧ ∃ e ∈ get_season_leaderboard c1db 1, e.username = "bob" :=
  leaderboard_ignores_min_gate c1db 1 "bob" (exampleResult "dash1" "bob" 1 30)
    (by decide) (by decide) rfl rfl

lemma map_points_insertionSort (l1 : List PointsEntry) (l2 : List Int)
    (h : (l1.map (fun s => s.points)).Perm l2) :
    (List.insertionSort pointsDescOrder l1).map (fun s => s.points)
      = List.insertionSort intDescOrder l2 := by
  have hperm : ((List.insertionSort pointsDescOrder l1).map (fun s => s.points)).Perm
      (List.insertionSort intDescOrder l2) := by
    refine ((List.Perm.map _ (List.perm_insertionSort pointsDescOrder l1)).trans h).trans ?_
    exact (List.perm_insertionSort intDescOrder l2).symm
  have hs1 : List.Sorted intDescOrder
      ((List.insertionSort pointsDescOrder l1).map (fun s => s.points)) :=
    List.Pairwise.map _ (fun _ _ hab => hab) (List.sorted_insertionSort pointsDescOrder l1)
  exact List.eq_of_perm_of_sorted hperm hs1 (List.sorted_insertionSort intDescOrder l2)

/-- C6: for a season of 10 total courses the 60 percent rule keeps
best_count = max(1, round(0.6 * 10)) = 6 of each player s results; a player
who completed 8 courses gets the sum of their 6 highest per-course point
values as total_points, with courses_counted 6 and courses_completed 8. -/
theorem sixty_rule_top_six (db : BotDB) (sid : Nat) (p : String) (rs : List CourseResultRow)
    (hc : total_courses db sid = 10)
    (hrs : db.course_results.filter (fun r => r.player_name == p && r.season_id == sid) = rs)
    (hlen : rs.length = 8) :
    best_courses_count 10 = 6 ∧
    ∃ e ∈ get_season_leaderboard db sid, e.username = p ∧
      e.courses_completed = 8 ∧ e.courses_counted = 6 ∧
      e.total_points = topSum 6 (rs.map (fun r => r.points)) := by
  have hbc : best_courses_count 10 = 6 := by decide
  refine ⟨hbc, ?_⟩
  have hstep : (db.course_results.filter (fun r => r.season_id == sid)).filter
      (fun r => r.player_name == p) = rs := by
    rw [List.filter_filter]
    exact hrs
  have hfperm : ((season_rows db sid).filter (fun r => r.player_name == p)).Perm rs := by
    have h1 := List.Perm.filter (fun r => r.player_name == p)
      (List.perm_insertionSort rowOrder (db.course_results.filter
        (fun r => r.season_id == sid)))
    rw [hstep] at h1
    exact h1
  have hne : rs ≠ [] := by
    intro h
    rw [h] at hlen
    exact absurd hlen (by decide)
  obtain ⟨r0, hr0⟩ := List.exists_mem_of_ne_nil rs hne
  have hr0m : r0 ∈ (db.course_results.filter (fun r => r.season_id == sid)).filter
      (fun r => r.player_name == p) := by
    rw [hstep]
    exact hr0
  have hr0parts := List.mem_filter.mp hr0m
  have hr0rows : r0 ∈ season_rows db sid := by
    unfold season_rows
    rw [(List.perm_insertionSort rowOrder _).mem_iff]
    exact hr0parts.1
  have hpmem : p ∈ (season_rows db sid).map (fun r => r.player_name) := by
    rw [List.mem_map]
    exact ⟨r0, hr0rows, by simpa using hr0parts.2⟩
  obtain ⟨e, hmem, hu, ht, hcc, hct⟩ :=
    leaderboard_entry_mem db sid p (by rw [hc]; decide) hpmem
  have hresperm : (player_results_for (season_rows db sid) p).Perm
      (rs.map (fun r => ({ course := r.course_name, points := r.points } : PointsEntry))) := by
    unfold player_results_for
    exact List.Perm.map _ hfperm
  have hreslen : (player_results_for (season_rows db sid) p).length = 8 := by
    rw [hresperm.length_eq, List.length_map, hlen]
  have hmapperm : ((player_results_for (season_rows db sid) p).map
      (fun s => s.points)).Perm (rs.map (fun r => r.points)) := by
    have h2 := List.Perm.map (fun s : PointsEntry => s.points) hresperm
    rw [List.map_map] at h2
    exact h2
  have hsorteq : (List.insertionSort pointsDescOrder
      (player_results_for (season_rows db sid) p)).map (fun s => s.points)
      = List.insertionSort intDescOrder (rs.map (fun r => r.points)) :=
    map_points_insertionSort _ _ hmapperm
  refine ⟨e, hmem, hu, ?_, ?_, ?_⟩
  · rw [hcc, hc, hbc]
    exact hreslen
  · rw [hct, hc, hbc]
    show ((List.insertionSort pointsDescOrder
      (player_results_for (season_rows db sid) p)).take 6).length = 6
    rw [List.length_take, (List.perm_insertionSort pointsDescOrder _).length_eq, hreslen]
    decide
  · rw [ht, hc, hbc]
    show (((List.insertionSort pointsDescOrder
      (player_results_for (season_rows db sid) p)).take 6).map (fun s => s.points)).sum
      = topSum 6 (rs.map (fun r => r.points))
    rw [List.map_take, hsorteq]
    rfl


/-- Witness for C6 at c6db: ten courses, alice with eight completions. -/
theorem sixty_rule_top_six_witness :
    best_courses_count 10 = 6 ∧
    ∃ e ∈ get_season_leaderboard c6db 1, e.username = "alice" ∧
      e.courses_completed = 8 ∧ e.courses_counted = 6 ∧
      e.total_points = topSum 6 (c6rows.map (fun r => r.points)) :=
  sixty_rule_top_six c6db 1 "alice" c6rows (by decide) (by decide) (by decide)
